import Mathlib

/-!
Verification of the nasdaquire query builder and response decoder
(`src/nasdaquire.py`), as a shallow embedding in Lean 4.

Raw payloads are modelled as `List Nat` of byte values; strings (URLs,
symbols, filenames) as `List Char`.
-/

set_option autoImplicit false

namespace Nasdaquire

/-! ### Response decoder (`QueryBase.download_data`, lines 135-137)

The Python code applies three `bytes.replace` calls in order:
`s.replace(b',', b'')`, then `.replace(b'\t\r', b'\r')`, then
`.replace(b'\t', b',')`.  Each is embedded below as the left-to-right,
non-overlapping scan that `bytes.replace` performs, specialised to its
concrete pattern.  Byte values: comma = 44, tab = 9, CR = 13. -/

/-- Embeds `s.replace(b',', b'')`: delete every comma byte (44). -/
def removeCommas : List Nat → List Nat
  | [] => []
  | c :: rest => if c = 44 then removeCommas rest else c :: removeCommas rest

/-- Embeds `.replace(b'\t\r', b'\r')`: every tab (9) immediately followed by a
carriage return (13) collapses to a bare carriage return; the scan is
left-to-right and non-overlapping, as for Python `bytes.replace`. -/
def replaceTabCR : List Nat → List Nat
  | [] => []
  | [c] => [c]
  | c1 :: c2 :: rest =>
    if c1 = 9 ∧ c2 = 13 then 13 :: replaceTabCR rest
    else c1 :: replaceTabCR (c2 :: rest)

/-- Embeds `.replace(b'\t', b',')`: every remaining tab becomes a comma. -/
def replaceTab : List Nat → List Nat
  | [] => []
  | c :: rest => (if c = 9 then 44 else c) :: replaceTab rest

/-- The full decode pipeline of `download_data`, in the source's order. -/
def decode (s : List Nat) : List Nat := replaceTab (replaceTabCR (removeCommas s))

theorem removeCommas_eq_self : ∀ s : List Nat, (∀ c ∈ s, c ≠ 44) → removeCommas s = s
  | [], _ => rfl
  | c :: rest, h => by
    have hc : c ≠ 44 := h c (List.mem_cons_self c rest)
    simp only [removeCommas, if_neg hc]
    exact congrArg (c :: ·) (removeCommas_eq_self rest fun x hx => h x (List.mem_cons_of_mem c hx))

theorem replaceTabCR_eq_self : ∀ s : List Nat, (∀ c ∈ s, c ≠ 9) → replaceTabCR s = s
  | [], _ => rfl
  | [_], _ => rfl
  | c1 :: c2 :: rest, h => by
    have hc : c1 ≠ 9 := h c1 (List.mem_cons_self c1 (c2 :: rest))
    have hcond : ¬(c1 = 9 ∧ c2 = 13) := fun hand => hc hand.1
    simp only [replaceTabCR, if_neg hcond]
    exact congrArg (c1 :: ·)
      (replaceTabCR_eq_self (c2 :: rest) fun x hx => h x (List.mem_cons_of_mem c1 hx))

theorem replaceTab_eq_self : ∀ s : List Nat, (∀ c ∈ s, c ≠ 9) → replaceTab s = s
  | [], _ => rfl
  | c :: rest, h => by
    have hc : c ≠ 9 := h c (List.mem_cons_self c rest)
    simp only [replaceTab, if_neg hc]
    exact congrArg (c :: ·) (replaceTab_eq_self rest fun x hx => h x (List.mem_cons_of_mem c hx))

/-- The third pass leaves no tab byte in its output. -/
theorem not_mem_replaceTab : ∀ s : List Nat, 9 ∉ replaceTab s
  | [], h => by simp [replaceTab] at h
  | c :: rest, h => by
    simp only [replaceTab, List.mem_cons] at h
    rcases h with h | h
    · rcases em (c = 9) with hc | hc
      · rw [if_pos hc] at h
        exact absurd h (by decide)
      · rw [if_neg hc] at h
        exact hc h.symm
    · exact not_mem_replaceTab rest h

theorem not_mem_decode_tab (s : List Nat) : 9 ∉ decode s :=
  not_mem_replaceTab (replaceTabCR (removeCommas s))

/-- Every byte of the comma-deletion output comes from the input. -/
theorem removeCommas_subset : ∀ s : List Nat, ∀ c ∈ removeCommas s, c ∈ s
  | [], _, hc => absurd hc (List.not_mem_nil _)
  | b :: rest, c, hc => by
    by_cases hb : b = 44
    · rw [removeCommas, if_pos hb] at hc
      exact List.mem_cons_of_mem b (removeCommas_subset rest c hc)
    · rw [removeCommas, if_neg hb] at hc
      rcases List.mem_cons.mp hc with h | h
      · exact h ▸ List.mem_cons_self b rest
      · exact List.mem_cons_of_mem b (removeCommas_subset rest c h)

/-- The comma-deletion output never contains a comma byte. -/
theorem comma_not_mem_removeCommas : ∀ s : List Nat, 44 ∉ removeCommas s
  | [], hc => absurd hc (List.not_mem_nil _)
  | b :: rest, hc => by
    by_cases hb : b = 44
    · rw [removeCommas, if_pos hb] at hc
      exact comma_not_mem_removeCommas rest hc
    · rw [removeCommas, if_neg hb] at hc
      rcases List.mem_cons.mp hc with h | h
      · exact hb h.symm
      · exact comma_not_mem_removeCommas rest h

theorem decode_eq_self (s : List Nat) (htab : 9 ∉ s) (hcomma : 44 ∉ s) :
    decode s = s := by
  unfold decode
  rw [removeCommas_eq_self s fun c hc hc44 => hcomma (hc44 ▸ hc),
      replaceTabCR_eq_self s fun c hc hc9 => htab (hc9 ▸ hc),
      replaceTab_eq_self s fun c hc hc9 => htab (hc9 ▸ hc)]

/-- On tab-free input the decoder only deletes commas: the later two passes
find no tab to rewrite. -/
theorem decode_eq_removeCommas (s : List Nat) (htab : 9 ∉ s) :
    decode s = removeCommas s := by
  have h9 : ∀ c ∈ removeCommas s, c ≠ 9 :=
    fun c hc hc9 => htab (hc9 ▸ removeCommas_subset s c hc)
  unfold decode
  rw [replaceTabCR_eq_self _ h9, replaceTab_eq_self _ h9]

/-! ### Wall-clock times and `time_delta_seconds` (lines 198-203) -/

/-- A Python `datetime.time`: wall-clock hour/minute/second, no date.
`datetime.time` guarantees `hour < 24`, `minute < 60`, `second < 60`. -/
structure PyTime where
  hour : Nat
  minute : Nat
  second : Nat
deriving DecidableEq, Repr

/-- The second-of-day count `t.hour*3600 + t.minute*60 + t.second`. -/
def secondsOf (t : PyTime) : Nat := t.hour * 60 * 60 + t.minute * 60 + t.second

/-- Embeds `time_delta_seconds(t1, t2)`: `max([t1_s, t2_s]) - min([t1_s, t2_s])`
on the second-of-day counts, an order-independent absolute difference. -/
def time_delta_seconds (t1 t2 : PyTime) : Nat :=
  max (t1.hour * 60 * 60 + t1.minute * 60 + t1.second)
      (t2.hour * 60 * 60 + t2.minute * 60 + t2.second) -
    min (t1.hour * 60 * 60 + t1.minute * 60 + t1.second)
      (t2.hour * 60 * 60 + t2.minute * 60 + t2.second)

theorem time_delta_seconds_eq_zero_iff (t1 t2 : PyTime) :
    time_delta_seconds t1 t2 ≤ 0 ↔ secondsOf t1 = secondsOf t2 := by
  unfold time_delta_seconds secondsOf
  omega

/-! ### Python `str.upper` on symbols (`QueryBase.__init__`, line 109) -/

/-- Embeds Python `str.upper` on a single character: an ASCII lowercase letter
maps 32 code points down, everything else is unchanged (ticker symbols are
ASCII, which is the range the source relies on). -/
def pyUpperChar (c : Char) : Char :=
  if 'a' ≤ c ∧ c ≤ 'z' then Char.ofNat (c.toNat - 32) else c

/-- Embeds `symbol.upper()` character by character. -/
def pyUpper (s : List Char) : List Char := s.map pyUpperChar

theorem char_le_iff_toNat {a b : Char} : a ≤ b ↔ a.toNat ≤ b.toNat := by
  rw [Char.le_def, UInt32.le_def, BitVec.le_def]
  rfl

theorem toNat_ofNat_valid {n : Nat} (h : n.isValidChar) : (Char.ofNat n).toNat = n := by
  rw [Char.ofNat, dif_pos h]
  rfl

theorem pyUpperChar_toNat_of_lower {c : Char} (h : 'a' ≤ c ∧ c ≤ 'z') :
    (pyUpperChar c).toNat = c.toNat - 32 := by
  have h1 : (97 : Nat) ≤ c.toNat := char_le_iff_toNat.mp h.1
  have h2 : c.toNat ≤ 122 := char_le_iff_toNat.mp h.2
  have hv : (c.toNat - 32).isValidChar := Or.inl (by omega)
  rw [pyUpperChar, if_pos h, toNat_ofNat_valid hv]

theorem pyUpperChar_idem (c : Char) : pyUpperChar (pyUpperChar c) = pyUpperChar c := by
  by_cases h : 'a' ≤ c ∧ c ≤ 'z'
  · have h1 : (97 : Nat) ≤ c.toNat := char_le_iff_toNat.mp h.1
    have h2 : c.toNat ≤ 122 := char_le_iff_toNat.mp h.2
    have htn := pyUpperChar_toNat_of_lower h
    have ha : ('a').toNat = 97 := rfl
    have hnot : ¬('a' ≤ pyUpperChar c ∧ pyUpperChar c ≤ 'z') := by
      intro hcon
      have hle := char_le_iff_toNat.mp hcon.1
      rw [htn, ha] at hle
      omega
    have hout : pyUpperChar (pyUpperChar c) =
        if 'a' ≤ pyUpperChar c ∧ pyUpperChar c ≤ 'z' then
          Char.ofNat ((pyUpperChar c).toNat - 32)
        else pyUpperChar c := rfl
    rw [hout, if_neg hnot]
  · have hc : pyUpperChar c = c := by
      rw [pyUpperChar, if_neg h]
    rw [hc]
    exact hc

theorem pyUpper_idem (s : List Char) : pyUpper (pyUpper s) = pyUpper s := by
  induction s with
  | nil => rfl
  | cons c rest ih =>
    simp only [pyUpper, List.map] at ih ⊢
    rw [pyUpperChar_idem, ih]

/-! ### Time formatting (`strftime` with zero-padded two-digit fields) -/

/-- Embeds a zero-padded two-digit `strftime` field (`%H`, `%M`): the tens
digit then the units digit, for the values `datetime.time` can hold. -/
def fmt2 (n : Nat) : List Char := [Char.ofNat (48 + n / 10), Char.ofNat (48 + n % 10)]

/-- Embeds `t.strftime('%H%M')`. -/
def strftimeHM (t : PyTime) : List Char := fmt2 t.hour ++ fmt2 t.minute

/-! ### `MinuteQuery` construction (lines 158-186)

The source constructor validates the range, normalises the symbol (done in
`QueryBase.__init__`), builds the request URL and output filename, and then
immediately calls `download_data`.  The pure construction is embedded here;
the effectful download step is `download_data` below, with the environment
(current date, directory state, network response) passed explicitly. -/

inductive QueryError where
  | invalidRange
  | malformedURL
  | notFetched
deriving DecidableEq, Repr

structure MinuteQuery where
  symbol : List Char
  start_time : PyTime
  end_time : PyTime
  request_url : List Char
  output_filename : List Char
  downloaded_file : List Char
  file_buffer : List Nat
  file_saved : Bool
deriving DecidableEq, Repr

/-- `QueryBase._REQUEST_ROOT`. -/
def REQUEST_ROOT : List Char := "https://charting.nasdaq.com/ext/charts.dll?".toList

/-- The fixed grid-encoding literal `subroot_str` of `MinuteQuery.__init__`,
reproduced fragment by fragment as the source concatenates it. -/
def subroot_str : List Char :=
  ("2-1-17-0-0,0,0,0,0|0,0,0,0,0|0,0,0,0,0|0,0,0,0,0|0,0,0,0,0|0,0,0,0,0|0,0,0,0,0|0,0,0,0,0|0,0," ++
   "0,0,0|0,0,0,0,0|0,0,0,0,0|0,0,0,0,0|0,0,0,0,0|0,0,0,0,0|0,0,0,0,0|0,0,0,0,0|0,0,0,0,0|0,0,0,0," ++
   "0|0,0,0,0,0|0,0,0,0,0|0,0,0,0,0|0,0,0,0,0|0,0,0,0,0|0,0,0,0,0|0,0,0,0,0|0,0,0,0,0|0,0,0,0,0|0," ++
   "0,0,0,0|0,0,0,0,0|0,0,0,0,0|0,0,0,0,0|0,0,0,0,0|0,0,0,0,0|0,0,0,0,0|0,0,0,0,0|0,0,0,0,0|0,0,0," ++
   "0,0|0,0,0,0,0|0,0,0,0,0|0,0,0,0,0-0").toList

/-- The fixed postamble literal `postamble_str` of `MinuteQuery.__init__`. -/
def postamble_str : List Char := "-BG=FFFFFF-BT=0-&WD=635-HT=395---XXCL-".toList

/-- The fixed market-segment code spliced between the times and the symbol. -/
def marketSegment : List Char := "-03NA000000".toList

/-- Embeds `MinuteQuery.__init__` up to (not including) the `download_data()`
call.  `today` is the environment's `datetime.now().strftime('%Y-%m-%d')`.
The unused locals `starttime_str`/`endtime_str` (`strftime('%M%S')`, lines
169-170) are dead code in the source and do not appear in the URL. -/
def mkMinuteQuery (symbol : List Char) (start_time end_time : PyTime)
    (today : List Char) : Except QueryError MinuteQuery :=
  if time_delta_seconds start_time end_time ≤ 0 then
    Except.error QueryError.invalidRange
  else
    Except.ok
      { symbol := pyUpper symbol
        start_time := start_time
        end_time := end_time
        request_url := REQUEST_ROOT ++ subroot_str ++ strftimeHM start_time ++
          strftimeHM end_time ++ marketSegment ++ pyUpper symbol ++ postamble_str
        output_filename := today ++ "_".toList ++ strftimeHM start_time ++
          strftimeHM end_time
        downloaded_file := []
        file_buffer := []
        file_saved := false }

/-! ### `QueryBase.download_data` (lines 116-147) -/

/-- One observable side effect of `download_data`. -/
inductive Effect where
  | mkdir (path : List Char)
  | netGet (url : List Char)
  | writeFile (path : List Char) (data : List Nat)
deriving DecidableEq, Repr

/-- Embeds `download_data`.  The environment is passed explicitly: `root` is
the data directory path, `dirExists` whether it already exists,
`nowTimestamp` the `'%Y-%m-%d_%H-%M-%S'` fallback timestamp, and `response`
the raw bytes the endpoint returns.  The result pairs the updated query (or
the error) with the ordered list of side effects performed. -/
def download_data (q : MinuteQuery) (root : List Char) (dirExists : Bool)
    (nowTimestamp : List Char) (response : List Nat) :
    Except QueryError (MinuteQuery × List Nat) × List Effect :=
  if q.request_url.length < 10 then
    (Except.error QueryError.malformedURL, [])
  else
    let dirEffects := if dirExists then [] else [Effect.mkdir root]
    let downloaded_file :=
      if q.output_filename.length < 3 then
        root ++ q.symbol ++ "_".toList ++ nowTimestamp ++ ".csv".toList
      else
        root ++ q.symbol ++ "_".toList ++ q.output_filename ++ ".csv".toList
    let bts := decode response
    (Except.ok
      ({ q with downloaded_file := downloaded_file, file_buffer := bts,
                file_saved := true }, bts),
     dirEffects ++ [Effect.netGet q.request_url, Effect.writeFile downloaded_file bts])

/-! ### `MinuteQuery.get_pandas_dataframe` (lines 188-195)

`pd.read_csv` is out of scope (a black-box CSV parser per the spec), so it is
passed as a parameter; the reversal `reindex(index=dataframe.index[::-1])` is
the code under verification. -/

def get_pandas_dataframe {α : Type} (q : MinuteQuery)
    (parseCSV : List Nat → List α) : Except QueryError (List α) :=
  if q.file_saved = false then
    Except.error QueryError.notFetched
  else
    Except.ok (List.reverse (parseCSV q.file_buffer))

/-! ### Shared lemmas about `mkMinuteQuery` -/

/-- A valid range makes `mkMinuteQuery` succeed with the record the source
builds: URL from the fixed fragments, the `%H%M`-formatted times, the
market-segment code and the upper-cased symbol; identifier from the current
date and both `%H%M` times. -/
theorem mkMinuteQuery_ok (symbol : List Char) (st en : PyTime) (today : List Char)
    (h : secondsOf st ≠ secondsOf en) :
    mkMinuteQuery symbol st en today = Except.ok
      { symbol := pyUpper symbol
        start_time := st
        end_time := en
        request_url := REQUEST_ROOT ++ subroot_str ++ (fmt2 st.hour ++ fmt2 st.minute) ++
          (fmt2 en.hour ++ fmt2 en.minute) ++ marketSegment ++ pyUpper symbol ++ postamble_str
        output_filename := today ++ "_".toList ++ (fmt2 st.hour ++ fmt2 st.minute) ++
          (fmt2 en.hour ++ fmt2 en.minute)
        downloaded_file := []
        file_buffer := []
        file_saved := false } := by
  have hguard : ¬ time_delta_seconds st en ≤ 0 :=
    fun hle => h ((time_delta_seconds_eq_zero_iff st en).mp hle)
  unfold mkMinuteQuery
  rw [if_neg hguard]
  rfl

theorem strftimeHM_congr {t1 t2 : PyTime} (hh : t1.hour = t2.hour)
    (hm : t1.minute = t2.minute) : strftimeHM t1 = strftimeHM t2 := by
  unfold strftimeHM fmt2
  rw [hh, hm]

/-! ### The claims -/

/-- C1: the response decoder applies exactly three byte-level transformations
in this order — delete every comma byte, collapse every tab+CR pair to a bare
CR, then promote every remaining tab to a comma — and decoding the raw bytes
"1,234" TAB "09:30" CR LF yields exactly "1234,09:30" CR LF. -/
theorem C1_decode_pipeline :
    (∀ s : List Nat, decode s = replaceTab (replaceTabCR (removeCommas s))) ∧
    decode [49, 44, 50, 51, 52, 9, 48, 57, 58, 51, 48, 13, 10] =
      [49, 50, 51, 52, 44, 48, 57, 58, 51, 48, 13, 10] :=
  ⟨fun _ => rfl, by decide⟩

/-- C2: building a `MinuteQuery` fails with the invalid-range error exactly
when the second-of-day counts of start and end coincide; a reversed range
(end strictly earlier than start) therefore passes the check, since the
duration is an order-independent absolute difference. -/
theorem C2_invalid_range_iff (symbol : List Char) (st en : PyTime) (today : List Char) :
    (mkMinuteQuery symbol st en today = Except.error QueryError.invalidRange ↔
      secondsOf st = secondsOf en) ∧
    (secondsOf st ≠ secondsOf en →
      ∃ q, mkMinuteQuery symbol st en today = Except.ok q) := by
  constructor
  · unfold mkMinuteQuery
    by_cases h : time_delta_seconds st en ≤ 0
    · rw [if_pos h]
      exact ⟨fun _ => (time_delta_seconds_eq_zero_iff st en).mp h, fun _ => rfl⟩
    · rw [if_neg h]
      constructor
      · intro heq
        exact Except.noConfusion heq
      · intro hsec
        exact absurd ((time_delta_seconds_eq_zero_iff st en).mpr hsec) h
  · intro hne
    exact ⟨_, mkMinuteQuery_ok symbol st en today hne⟩

/-- C2 witness: a genuinely reversed range (start 16:00:00, end 09:30:00) is
accepted by the builder. -/
theorem C2_invalid_range_iff_witness :
    secondsOf ⟨16, 0, 0⟩ ≠ secondsOf ⟨9, 30, 0⟩ ∧
    ∃ q, mkMinuteQuery ("aapl".toList) ⟨16, 0, 0⟩ ⟨9, 30, 0⟩ ("2026-10-12".toList) =
      Except.ok q :=
  ⟨by decide,
    (C2_invalid_range_iff ("aapl".toList) ⟨16, 0, 0⟩ ⟨9, 30, 0⟩ ("2026-10-12".toList)).2
      (by decide)⟩

/-- C3: for a valid range the request URL is exactly the request root, the
grid-encoding literal, start as zero-padded HHMM, end as zero-padded HHMM,
the market-segment code, the upper-cased symbol and the postamble, and the
output identifier is exactly the current date, an underscore, then start and
end as zero-padded HHMM; both are functions of (symbol, start, end) alone
(plus the date for the identifier), so equal inputs give byte-identical URLs. -/
theorem C3_url_and_identifier (symbol : List Char) (st en : PyTime) (today : List Char)
    (h : secondsOf st ≠ secondsOf en) :
    mkMinuteQuery symbol st en today = Except.ok
      { symbol := pyUpper symbol
        start_time := st
        end_time := en
        request_url := REQUEST_ROOT ++ subroot_str ++ (fmt2 st.hour ++ fmt2 st.minute) ++
          (fmt2 en.hour ++ fmt2 en.minute) ++ marketSegment ++ pyUpper symbol ++ postamble_str
        output_filename := today ++ "_".toList ++ (fmt2 st.hour ++ fmt2 st.minute) ++
          (fmt2 en.hour ++ fmt2 en.minute)
        downloaded_file := []
        file_buffer := []
        file_saved := false } :=
  mkMinuteQuery_ok symbol st en today h

/-- C3 witness: the URL and identifier for AAPL, 09:30-16:00, on 2026-10-12. -/
theorem C3_url_and_identifier_witness :
    secondsOf ⟨9, 30, 0⟩ ≠ secondsOf ⟨16, 0, 0⟩ ∧
    mkMinuteQuery ("aapl".toList) ⟨9, 30, 0⟩ ⟨16, 0, 0⟩ ("2026-10-12".toList) = Except.ok
      { symbol := pyUpper ("aapl".toList)
        start_time := ⟨9, 30, 0⟩
        end_time := ⟨16, 0, 0⟩
        request_url := REQUEST_ROOT ++ subroot_str ++
          (fmt2 (9 : Nat) ++ fmt2 (30 : Nat)) ++ (fmt2 (16 : Nat) ++ fmt2 (0 : Nat)) ++
          marketSegment ++ pyUpper ("aapl".toList) ++ postamble_str
        output_filename := ("2026-10-12".toList) ++ "_".toList ++
          (fmt2 (9 : Nat) ++ fmt2 (30 : Nat)) ++ (fmt2 (16 : Nat) ++ fmt2 (0 : Nat))
        downloaded_file := []
        file_buffer := []
        file_saved := false } :=
  ⟨by decide,
    C3_url_and_identifier ("aapl".toList) ⟨9, 30, 0⟩ ⟨16, 0, 0⟩ ("2026-10-12".toList)
      (by decide)⟩

/-- C4: on a successfully fetched query, materializing the table returns the
parsed rows in reversed (oldest-first) order. -/
theorem C4_rows_reversed {α : Type} (q : MinuteQuery) (parseCSV : List Nat → List α)
    (rows : List α) (hsaved : q.file_saved = true)
    (hparse : parseCSV q.file_buffer = rows) :
    get_pandas_dataframe q parseCSV = Except.ok rows.reverse := by
  unfold get_pandas_dataframe
  rw [hsaved, hparse]
  rfl

/-- A query in the post-fetch state (`file_saved` true, decoded bytes held in
`file_buffer`). -/
def fetchedQuery : MinuteQuery :=
  { symbol := "AAPL".toList
    start_time := ⟨9, 30, 0⟩
    end_time := ⟨16, 0, 0⟩
    request_url := REQUEST_ROOT
    output_filename := []
    downloaded_file := []
    file_buffer := [49, 13, 10]
    file_saved := true }

/-- C4 witness: rows parsed as [3, 2, 1] (newest-first) are delivered as
[1, 2, 3] (oldest-first). -/
theorem C4_rows_reversed_witness :
    fetchedQuery.file_saved = true ∧
    (fun _ : List Nat => [3, 2, 1]) fetchedQuery.file_buffer = [3, 2, 1] ∧
    get_pandas_dataframe fetchedQuery (fun _ : List Nat => [3, 2, 1]) =
      Except.ok [1, 2, 3] :=
  ⟨rfl, rfl, C4_rows_reversed fetchedQuery (fun _ => [3, 2, 1]) [3, 2, 1] rfl rfl⟩

/-- C5: the decoder is idempotent on already-clean CSV input: any byte
sequence with no tab bytes (and hence no embedded-comma artifacts left to
strip — delimiter commas are allowed) decodes to the same result twice. -/
theorem C5_decode_idempotent (s : List Nat) (htab : 9 ∉ s) :
    decode (decode s) = decode s := by
  rw [decode_eq_removeCommas s htab]
  exact decode_eq_self (removeCommas s)
    (fun hc => htab (removeCommas_subset s 9 hc))
    (comma_not_mem_removeCommas s)

/-- C5 witness: idempotence on the comma-delimited clean CSV row
"09:30,1234,500" CR LF. -/
theorem C5_decode_idempotent_witness :
    (9 : Nat) ∉ [48, 57, 58, 51, 48, 44, 49, 50, 51, 52, 44, 53, 48, 48, 13, 10] ∧
    decode (decode [48, 57, 58, 51, 48, 44, 49, 50, 51, 52, 44, 53, 48, 48, 13, 10]) =
      decode [48, 57, 58, 51, 48, 44, 49, 50, 51, 52, 44, 53, 48, 48, 13, 10] :=
  ⟨by decide,
    C5_decode_idempotent [48, 57, 58, 51, 48, 44, 49, 50, 51, 52, 44, 53, 48, 48, 13, 10]
      (by decide)⟩

/-- C6: the symbol is upper-cased before any use, so building from a lower-
or mixed-case symbol gives exactly the same result (in particular the same
request URL and output identifier) as building from its upper-cased form. -/
theorem C6_upper_normalisation (symbol : List Char) (st en : PyTime) (today : List Char) :
    mkMinuteQuery (pyUpper symbol) st en today = mkMinuteQuery symbol st en today := by
  unfold mkMinuteQuery
  rw [pyUpper_idem]

/-- C7: a request URL shorter than 10 characters makes `download_data` fail
with the malformed-URL error while performing no side effect at all: no
directory creation, no network request, no file write. -/
theorem C7_short_url_rejected (q : MinuteQuery) (root : List Char) (dirExists : Bool)
    (nowTimestamp : List Char) (response : List Nat)
    (h : q.request_url.length < 10) :
    download_data q root dirExists nowTimestamp response =
      (Except.error QueryError.malformedURL, ([] : List Effect)) := by
  unfold download_data
  rw [if_pos h]

/-- A query whose request URL was never assigned (the `QueryBase.__init__`
state, `request_url == ""`). -/
def emptyUrlQuery : MinuteQuery :=
  { symbol := "AAPL".toList
    start_time := ⟨9, 30, 0⟩
    end_time := ⟨16, 0, 0⟩
    request_url := []
    output_filename := []
    downloaded_file := []
    file_buffer := []
    file_saved := false }

/-- C7 witness: the empty URL is rejected with no effects, even with the data
directory missing and a pending response available. -/
theorem C7_short_url_rejected_witness :
    emptyUrlQuery.request_url.length < 10 ∧
    download_data emptyUrlQuery ("data".toList) false ("2026-10-12_09-30-00".toList)
        [49, 9, 50] =
      (Except.error QueryError.malformedURL, ([] : List Effect)) :=
  ⟨by decide,
    C7_short_url_rejected emptyUrlQuery ("data".toList) false
      ("2026-10-12_09-30-00".toList) [49, 9, 50] (by decide)⟩

/-- C8: requesting the table from a query that has not completed a successful
fetch (`file_saved` false) fails with the not-fetched error and returns no
rows. -/
theorem C8_table_requires_fetch {α : Type} (q : MinuteQuery)
    (parseCSV : List Nat → List α) (h : q.file_saved = false) :
    get_pandas_dataframe q parseCSV = Except.error QueryError.notFetched := by
  unfold get_pandas_dataframe
  rw [h, if_pos rfl]

/-- C8 witness: the freshly constructed (never fetched) query yields the
not-fetched error. -/
theorem C8_table_requires_fetch_witness :
    emptyUrlQuery.file_saved = false ∧
    get_pandas_dataframe emptyUrlQuery (fun _ : List Nat => ([] : List Nat)) =
      Except.error QueryError.notFetched :=
  ⟨rfl, C8_table_requires_fetch emptyUrlQuery (fun _ => []) rfl⟩

/-- C9: for every raw input, the decoder output contains no tab byte. -/
theorem C9_decode_no_tab (s : List Nat) : (decode s).count 9 = 0 :=
  List.count_eq_zero.mpr (not_mem_decode_tab s)

/-- C10: the seconds fields of start and end do not influence the request URL
or the output identifier — two ranges agreeing on hours and minutes and both
passing validation build queries with identical URLs and identifiers. -/
theorem C10_seconds_do_not_leak (symbol : List Char) (st1 en1 st2 en2 : PyTime)
    (today : List Char)
    (hsh : st1.hour = st2.hour) (hsm : st1.minute = st2.minute)
    (heh : en1.hour = en2.hour) (hem : en1.minute = en2.minute)
    (h1 : secondsOf st1 ≠ secondsOf en1) (h2 : secondsOf st2 ≠ secondsOf en2) :
    ∃ q1 q2,
      mkMinuteQuery symbol st1 en1 today = Except.ok q1 ∧
      mkMinuteQuery symbol st2 en2 today = Except.ok q2 ∧
      q1.request_url = q2.request_url ∧
      q1.output_filename = q2.output_filename := by
  refine ⟨_, _, mkMinuteQuery_ok symbol st1 en1 today h1,
    mkMinuteQuery_ok symbol st2 en2 today h2, ?_, ?_⟩
  · simp only [hsh, hsm, heh, hem]
  · simp only [hsh, hsm, heh, hem]

/-- C10 witness: ranges 09:30:00-16:00:00 and 09:30:15-16:00:45 differ only
in seconds and build identical URLs and identifiers. -/
theorem C10_seconds_do_not_leak_witness :
    (PyTime.hour ⟨9, 30, 0⟩ = PyTime.hour ⟨9, 30, 15⟩) ∧
    (PyTime.minute ⟨9, 30, 0⟩ = PyTime.minute ⟨9, 30, 15⟩) ∧
    (PyTime.hour ⟨16, 0, 0⟩ = PyTime.hour ⟨16, 0, 45⟩) ∧
    (PyTime.minute ⟨16, 0, 0⟩ = PyTime.minute ⟨16, 0, 45⟩) ∧
    secondsOf ⟨9, 30, 0⟩ ≠ secondsOf ⟨16, 0, 0⟩ ∧
    secondsOf ⟨9, 30, 15⟩ ≠ secondsOf ⟨16, 0, 45⟩ ∧
    ∃ q1 q2,
      mkMinuteQuery ("AAPL".toList) ⟨9, 30, 0⟩ ⟨16, 0, 0⟩ ("2026-10-12".toList) =
        Except.ok q1 ∧
      mkMinuteQuery ("AAPL".toList) ⟨9, 30, 15⟩ ⟨16, 0, 45⟩ ("2026-10-12".toList) =
        Except.ok q2 ∧
      q1.request_url = q2.request_url ∧
      q1.output_filename = q2.output_filename :=
  ⟨rfl, rfl, rfl, rfl, by decide, by decide,
    C10_seconds_do_not_leak ("AAPL".toList) ⟨9, 30, 0⟩ ⟨16, 0, 0⟩ ⟨9, 30, 15⟩ ⟨16, 0, 45⟩
      ("2026-10-12".toList) rfl rfl rfl rfl (by decide) (by decide)⟩

end Nasdaquire
